import Mathlib

/-!
Shallow embedding of `src/router.ts` (package drs-listener): an SNS webhook
router that verifies an envelope signature, confirms subscription requests,
unwraps transport-nested payloads, classifies DRS notifications and
dispatches them to caller-supplied handlers.

External collaborators (the `sns-validator` signature check, `JSON.parse`
on the envelope `Message`, and the outbound HTTP GET of the `request`
library) are modelled as oracle inputs gathered in an `Env` record; the
router body itself is translated statement by statement.  A JavaScript
exception escaping the (async) callback is modelled by the dedicated
outcome `Action.throw`; falling off the end of the dispatch chain with no
call at all is `Action.silent`.
-/

namespace DRS

/-- JSON values, as produced by `JSON.parse` (numbers as `Int` suffice for
the fields this router inspects). -/
inductive Json where
  | null
  | bool (b : Bool)
  | num (n : Int)
  | str (s : String)
  | arr (elems : List Json)
  | obj (fields : List (String × Json))
deriving Repr

/-- JavaScript truthiness of a defined value. -/
def Json.truthy : Json → Bool
  | .null => false
  | .bool b => b
  | .num n => n != 0
  | .str s => s != ""
  | .arr _ => true
  | .obj _ => true

/-- Truthiness of a possibly-`undefined` value (`none` = `undefined`). -/
def truthyOpt : Option Json → Bool
  | none => false
  | some v => v.truthy

def Json.isNull : Json → Bool
  | .null => true
  | _ => false

def lookupField : List (String × Json) → String → Option Json
  | [], _ => none
  | (k, v) :: rest, key => if k = key then some v else lookupField rest key

/-- Property lookup on a defined, non-null value: a field of an object,
`undefined` (`none`) on a non-object or a missing field. -/
def Json.get : Json → String → Option Json
  | .obj fs, k => lookupField fs k
  | _, _ => none

/-- JavaScript member access `base.k` where `base` may be `undefined`:
throws a TypeError when the base is `undefined` or `null`. -/
def access : Option Json → String → Except Unit (Option Json)
  | none, _ => .error ()
  | some .null, _ => .error ()
  | some v, k => .ok (v.get k)

/-- The verified SNS envelope (interface `IBodySNS` in the source); the
source field `Type` is spelled `Type_` because `Type` is a Lean keyword. -/
structure IBodySNS where
  Type_ : String
  MessageId : String
  TopicArn : String
  Subject : String
  Message : String
  Timestamp : String
  SignatureVersion : String
  Signature : String
  SigningCertURL : String
  UnsubscribeURL : String
  SubscribeURL : Option String
deriving Repr, DecidableEq

/-- Which optional handlers the caller supplied (interface `IHandlers`);
`onError` is mandatory in `IHandlers` and therefore always present. -/
structure IHandlers where
  onOnlyValidateMessage : Bool
  onNonDRSMessage : Bool
  onDeviceDeregistered : Bool
  onDeviceRegistered : Bool
  onItemShippedNotification : Bool
  onOrderCancelled : Bool
  onOrderPlaced : Bool
  onSubscriptionChanged : Bool
deriving Repr, DecidableEq

/-- The `IOrderInfo` record built for the order-related handlers. -/
structure IOrderInfo where
  instanceId : Json
  slotId : Json
  productInfo : Option Json
deriving Repr

/-- The response object handed to the callback of the outbound GET. -/
structure ConfirmResponse where
  statusCode : Int
deriving Repr, DecidableEq

/-- The `(confirmErr, confirmResponse, confirmBody)` triple handed to the
callback of `request(url, {}, ...)`; a transport error leaves the
response `undefined`. -/
structure ConfirmOutcome where
  err : Option Json
  resp : Option ConfirmResponse
  body : Option Json
deriving Repr

/-- The `raw` context attached to an `IError` report. -/
inductive ErrRaw where
  | verr (e : Json)
  | envelope (p : IBodySNS)
  | confirm (e : Option Json) (r : Option ConfirmResponse) (b : Option Json)
  | parseErr (e : Json)
  | message (t : Json)
  | handler (name : String)
deriving Repr

/-- The terminal outcome of one dispatch call: which callback was invoked
with which arguments, a bare confirmation attempt, an escaped exception
(`throw`), or nothing at all (`silent`). -/
inductive Action where
  | error (code : String) (raw : ErrRaw)
  | nonDRSMessage (parsed : IBodySNS)
  | deviceDeregistered (customerId modelId serialNumber : Option Json) (raw : Json)
  | deviceRegistered (customerId modelId serialNumber : Option Json) (raw : Json)
  | itemShipped (customerId modelId serialNumber : Option Json) (orderInfo : IOrderInfo) (raw : Json)
  | orderCancelled (customerId modelId serialNumber : Option Json) (orderInfo : IOrderInfo) (raw : Json)
  | orderPlaced (customerId modelId serialNumber : Option Json) (orderInfo : IOrderInfo) (raw : Json)
  | subscriptionChanged (customerId modelId serialNumber : Option Json) (slotsSubscriptionStatus : Option Json) (raw : Json)
  | confirmAttempt (url : String)
  | throw
  | silent
deriving Repr

/-- Outcomes of the external collaborators for one dispatch call: the
signature validator (`validator.validate`), `JSON.parse` on
`parsed.Message`, and the outbound GET. -/
structure Env where
  verify : Except Json IBodySNS
  parse : Except Json Json
  confirm : ConfirmOutcome

/-- The `knownMessageTypes` array of the source. -/
def knownMessageTypes : List String :=
  ["DeviceDeregisteredNotification",
   "DeviceRegisteredNotification",
   "ItemShippedNotification",
   "OrderCancelledNotification",
   "OrderPlacedNotification",
   "SubscriptionChangedNotification"]

/-- `knownMessageTypes.indexOf(t) === -1` fails exactly on a string of the
list; any non-string JSON value is never found. -/
def isKnownType : Json → Bool
  | .str s => knownMessageTypes.contains s
  | _ => false

/-- The guard `message[k] && message[k][sub]` (both JS-truthy). -/
def nestedTruthy (m : Json) (k sub : String) : Bool :=
  match m.get k with
  | some v => v.truthy && truthyOpt (v.get sub)
  | none => false

/-- The transport-unwrapping chain of lines 169-177: the first of the keys
`default`, `email`, `http`, `https` whose truthy sub-object has a truthy
`deviceInfo` field replaces the payload. -/
def selectWrapped (m : Json) : Option Json :=
  if nestedTruthy m "default" "deviceInfo" then m.get "default"
  else if nestedTruthy m "email" "deviceInfo" then m.get "email"
  else if nestedTruthy m "http" "deviceInfo" then m.get "http"
  else if nestedTruthy m "https" "deviceInfo" then m.get "https"
  else none

/-- The four universal fields read at lines 203-206. -/
structure Extracted where
  serialNumber : Option Json
  modelId : Option Json
  messageType : Option Json
  customerId : Option Json
deriving Repr

/-- Lines 203-206: `message.deviceInfo.deviceIdentifier.serialNumber`,
`message.deviceInfo.productIdentifier.modelId`,
`message.notificationInfo.notificationType`,
`message.customerInfo.directedCustomerId`.  Each inner access throws when
its base is `undefined` or `null`; `m` itself is never null on the paths
that reach this code. -/
def extract (m : Json) : Except Unit Extracted :=
  match access (m.get "deviceInfo") "deviceIdentifier" with
  | .error e => .error e
  | .ok did =>
    match access did "serialNumber" with
    | .error e => .error e
    | .ok sn =>
      match access (m.get "deviceInfo") "productIdentifier" with
      | .error e => .error e
      | .ok pid =>
        match access pid "modelId" with
        | .error e => .error e
        | .ok mid =>
          match access (m.get "notificationInfo") "notificationType" with
          | .error e => .error e
          | .ok mt =>
            match access (m.get "customerInfo") "directedCustomerId" with
            | .error e => .error e
            | .ok cid => .ok ⟨sn, mid, mt, cid⟩

/-- The ternary `v ? v : ""` applied to a possibly-undefined value. -/
def jsOrEmpty : Option Json → Json
  | some v => if v.truthy then v else .str ""
  | none => .str ""

/-- Building the `IOrderInfo` literal: reads
`message.orderInfo.instanceId` / `.slotId` (throwing when `orderInfo` is
absent or null) and either forces `productInfo` to `[]` (cancellation) or
passes `message.orderInfo.productInfo` through. -/
def buildOrderInfo (m : Json) (cancelled : Bool) : Except Unit IOrderInfo :=
  match access (m.get "orderInfo") "instanceId" with
  | .error e => .error e
  | .ok inst =>
    match access (m.get "orderInfo") "slotId" with
    | .error e => .error e
    | .ok slot =>
      match (if cancelled then .ok (some (Json.arr []))
             else access (m.get "orderInfo") "productInfo" : Except Unit (Option Json)) with
      | .error e => .error e
      | .ok prod => .ok ⟨jsOrEmpty inst, jsOrEmpty slot, prod⟩

/-- The shared `missingHandlerError` template right before it is reported:
per call its observable content is `{code, reason, raw: {handler: name}}`. -/
def missingHandler (name : String) : Action :=
  .error "missing_handler" (.handler name)

/-- The dispatch chain of lines 210-267: strict string comparison of
`messageType` against the six known literals; each branch invokes the
matching handler when supplied, else reports `missing_handler`; a value
matching none of the six falls off the chain (`silent`). -/
def dispatchTyped (e : Extracted) (m : Json) (h : IHandlers) : Except Unit Action :=
  match e.messageType with
  | some (.str t) =>
    if t = "DeviceDeregisteredNotification" then
      if h.onDeviceDeregistered then
        .ok (.deviceDeregistered e.customerId e.modelId e.serialNumber m)
      else .ok (missingHandler "onDeviceDeregistered")
    else if t = "DeviceRegisteredNotification" then
      if h.onDeviceRegistered then
        .ok (.deviceRegistered e.customerId e.modelId e.serialNumber m)
      else .ok (missingHandler "onDeviceRegistered")
    else if t = "ItemShippedNotification" then
      if h.onItemShippedNotification then
        match buildOrderInfo m false with
        | .error er => .error er
        | .ok oi => .ok (.itemShipped e.customerId e.modelId e.serialNumber oi m)
      else .ok (missingHandler "onItemShippedNotification")
    else if t = "OrderCancelledNotification" then
      if h.onOrderCancelled then
        match buildOrderInfo m true with
        | .error er => .error er
        | .ok oi => .ok (.orderCancelled e.customerId e.modelId e.serialNumber oi m)
      else .ok (missingHandler "onOrderCancelled")
    else if t = "OrderPlacedNotification" then
      if h.onOrderPlaced then
        match buildOrderInfo m false with
        | .error er => .error er
        | .ok oi => .ok (.orderPlaced e.customerId e.modelId e.serialNumber oi m)
      else .ok (missingHandler "onOrderPlaced")
    else if t = "SubscriptionChangedNotification" then
      if h.onSubscriptionChanged then
        .ok (.subscriptionChanged e.customerId e.modelId e.serialNumber
          ((match m.get "subscriptionInfo" with
            | some v => if v.truthy then v else Json.obj []
            | none => Json.obj []).get "slotsSubscriptionStatus") m)
      else .ok (missingHandler "onSubscriptionChanged")
    else .ok .silent
  | _ => .ok .silent

/-- Field extraction followed by the dispatch chain; an escaping
TypeError becomes `Action.throw`. -/
def runTyped (m : Json) (h : IHandlers) : Action :=
  match extract m with
  | .error _ => .throw
  | .ok e =>
    match dispatchTyped e m h with
    | .error _ => .throw
    | .ok a => a

/-- The two-tier non-DRS fallback of lines 188-199: the specific handler
when supplied, else the `not_drs` error with the verified envelope. -/
def nonDrsFallback (parsed : IBodySNS) (h : IHandlers) : Action :=
  if h.onNonDRSMessage then .nonDRSMessage parsed
  else .error "not_drs" (.envelope parsed)

/-- Lines 166-267 on the parsed payload: property access on a null payload
throws; otherwise unwrap one transport level, or check
`message.notificationInfo && message.notificationInfo.notificationType`
and the known-type membership, or fall back to the non-DRS handling. -/
def dispatchMessage (msg0 : Json) (parsed : IBodySNS) (h : IHandlers) : Action :=
  if msg0.isNull then .throw
  else
    match selectWrapped msg0 with
    | some m => runTyped m h
    | none =>
      match msg0.get "notificationInfo" with
      | some ni =>
        if ni.truthy then
          match ni.get "notificationType" with
          | some t =>
            if t.truthy then
              if isKnownType t then runTyped msg0 h
              else .error "unknown_message" (.message t)
            else nonDrsFallback parsed h
          | none => nonDrsFallback parsed h
        else nonDrsFallback parsed h
      | none => nonDrsFallback parsed h

/-- Lines 137-150: the confirmation GET's callback.  On this path the outer
validation `err` is null, so the test `err !== null || ...` reduces to the
status-code comparison — but reading `confirmResponse.statusCode` throws
when the GET failed at the transport level and left the response
undefined. -/
def handleConfirm (url : String) (c : ConfirmOutcome) : Action :=
  match c.resp with
  | none => .throw
  | some r =>
    if r.statusCode ≠ 200 then
      .error "invalid_subscription_request_response" (.confirm c.err c.resp c.body)
    else .confirmAttempt url

/-- `receiveRequest` (lines 111-269).  `parsed.SubscribeURL ? ... : ""` is
`Option.getD ""` because an empty string is falsy. -/
def receiveRequest (env : Env) (h : IHandlers) : Action :=
  match env.verify with
  | .error e => .error "invalid_signature" (.verr e)
  | .ok parsed =>
    if parsed.Type_ = "SubscriptionConfirmation" then
      let url := parsed.SubscribeURL.getD ""
      if url = "" then .error "invalid_subscription_request" (.envelope parsed)
      else handleConfirm url env.confirm
    else
      match env.parse with
      | .error er => .error "invalid_json" (.parseErr er)
      | .ok msg0 => dispatchMessage msg0 parsed h

/-- Outcome of the `validate` entry point's single callback/settlement. -/
inductive VAction where
  | resolve (parsed : IBodySNS)
  | reject (code : String) (raw : Json)
  | onError (code : String) (raw : Json)
  | callbackErr (code : String) (raw : Json)
  | onOnlyValidate (parsed : IBodySNS)
  | callbackOk (parsed : IBodySNS)
  | silent
deriving Repr

/-- What `validate` returns: a promise settling to the given outcome, or a
plain (undefined) return with the given callback outcome. -/
inductive VResult where
  | promise (outcome : VAction)
  | plain (action : VAction)
deriving Repr

/-- `validate` (lines 271-309): promise style exactly when both the handler
set and the plain callback are omitted; otherwise callback style.  On this
code path `handlers.onError` is always present (mandatory in `IHandlers`),
and when `handlers` is omitted the plain callback must be present or the
promise branch would have been taken. -/
def validate (vres : Except Json IBodySNS) (handlers : Option IHandlers)
    (hasCallback : Bool) : VResult :=
  if handlers.isNone && !hasCallback then
    .promise (match vres with
      | .error e => .reject "invalid_signature" e
      | .ok parsed => .resolve parsed)
  else
    .plain (match vres with
      | .error e =>
        match handlers with
        | some _ => .onError "invalid_signature" e
        | none => .callbackErr "invalid_signature" e
      | .ok parsed =>
        match handlers with
        | some hs =>
          if hs.onOnlyValidateMessage then .onOnlyValidate parsed
          else if hasCallback then .callbackOk parsed else .silent
        | none => if hasCallback then .callbackOk parsed else .silent)

/-! ### Derived notions used to state the claims -/

/-- Whether a possibly-undefined `messageType` value matches one of the six
known notification types under the strict comparisons of the dispatch
chain. -/
def isKnownTypeOpt : Option Json → Bool
  | some t => isKnownType t
  | none => false

/-- The payload (if any) on which field extraction and dispatch run: the
transport-unwrapped sub-object, or the payload itself when it carries a
truthy notification-info with a truthy, known notification type.  Mirrors
the branch structure of `dispatchMessage`. -/
def dispatchTarget (m : Json) : Option Json :=
  if m.isNull then none
  else
    match selectWrapped m with
    | some v => some v
    | none =>
      match m.get "notificationInfo" with
      | some ni =>
        if ni.truthy then
          match ni.get "notificationType" with
          | some t =>
            if t.truthy then
              if isKnownType t then some m else none
            else none
          | none => none
        else none
      | none => none

/-- Whether the handler for a given known notification type is supplied. -/
def handlerFlag (t : String) (h : IHandlers) : Bool :=
  if t = "DeviceDeregisteredNotification" then h.onDeviceDeregistered
  else if t = "DeviceRegisteredNotification" then h.onDeviceRegistered
  else if t = "ItemShippedNotification" then h.onItemShippedNotification
  else if t = "OrderCancelledNotification" then h.onOrderCancelled
  else if t = "OrderPlacedNotification" then h.onOrderPlaced
  else if t = "SubscriptionChangedNotification" then h.onSubscriptionChanged
  else false

/-- The name reported in `raw.handler` for each known notification type. -/
def handlerFieldName (t : String) : String :=
  if t = "DeviceDeregisteredNotification" then "onDeviceDeregistered"
  else if t = "DeviceRegisteredNotification" then "onDeviceRegistered"
  else if t = "ItemShippedNotification" then "onItemShippedNotification"
  else if t = "OrderCancelledNotification" then "onOrderCancelled"
  else if t = "OrderPlacedNotification" then "onOrderPlaced"
  else if t = "SubscriptionChangedNotification" then "onSubscriptionChanged"
  else ""

/-! ### Concrete specimens used in the closed evaluations -/

/-- A verified ordinary notification envelope. -/
def specimenEnvelope : IBodySNS :=
  ⟨"Notification", "m-1", "arn:aws:sns:us-east-1:123:topic", "subject", "{}",
   "2020-01-01T00:00:00Z", "1", "sig", "https://cert.example", "https://unsub.example", none⟩

/-- A verified subscription-confirmation envelope with a non-empty URL. -/
def specimenConfirmEnvelope : IBodySNS :=
  { specimenEnvelope with
    Type_ := "SubscriptionConfirmation",
    SubscribeURL := some "https://sns.example.com/confirm" }

/-- A handler set supplying every optional handler. -/
def allHandlers : IHandlers := ⟨true, true, true, true, true, true, true, true⟩

/-- A handler set lacking only `onOrderPlaced`. -/
def noOrderPlacedHandlers : IHandlers := ⟨true, true, true, true, true, true, false, true⟩

/-- A handler set lacking only `onOnlyValidateMessage`. -/
def noValidateHandlers : IHandlers := ⟨false, true, true, true, true, true, true, true⟩

/-- A GET outcome that never happens (paths that make no confirmation call). -/
def noConfirmCall : ConfirmOutcome := ⟨none, none, none⟩

/-- A GET outcome for a transport-level failure: an error and no response. -/
def transportErrorOutcome : ConfirmOutcome :=
  ⟨some (Json.str "ECONNREFUSED"), none, none⟩

/-- A payload wrapped under `default` whose nested notification type is not
among the six known types, with all four universal fields present. -/
def wrappedMysteryPayload : Json :=
  Json.obj [("default", Json.obj [
    ("deviceInfo", Json.obj [
      ("deviceIdentifier", Json.obj [("serialNumber", Json.str "S9")]),
      ("productIdentifier", Json.obj [("modelId", Json.str "M9")])]),
    ("notificationInfo", Json.obj [("notificationType", Json.str "MysteryNotification")]),
    ("customerInfo", Json.obj [("directedCustomerId", Json.str "C9")])])]

/-- Like `wrappedMysteryPayload` with the unknown type string `FooBar`. -/
def wrappedUnknownPayload : Json :=
  Json.obj [("default", Json.obj [
    ("deviceInfo", Json.obj [
      ("deviceIdentifier", Json.obj [("serialNumber", Json.str "S1")]),
      ("productIdentifier", Json.obj [("modelId", Json.str "M1")])]),
    ("notificationInfo", Json.obj [("notificationType", Json.str "FooBar")]),
    ("customerInfo", Json.obj [("directedCustomerId", Json.str "C1")])])]

/-- A classified payload (known type) with no `deviceInfo` at all. -/
def missingDevicePayload : Json :=
  Json.obj [("notificationInfo",
    Json.obj [("notificationType", Json.str "OrderPlacedNotification")])]

/-- An unwrapped payload whose notification type is unknown. -/
def unknownTypePayload : Json :=
  Json.obj [("notificationInfo", Json.obj [("notificationType", Json.str "FooBar")])]

/-- A complete `OrderPlacedNotification` payload. -/
def orderPlacedPayload : Json :=
  Json.obj [
    ("notificationInfo", Json.obj [("notificationType", Json.str "OrderPlacedNotification")]),
    ("deviceInfo", Json.obj [
      ("deviceIdentifier", Json.obj [("serialNumber", Json.str "S1")]),
      ("productIdentifier", Json.obj [("modelId", Json.str "M1")])]),
    ("customerInfo", Json.obj [("directedCustomerId", Json.str "C1")]),
    ("orderInfo", Json.obj [
      ("instanceId", Json.str "I1"), ("slotId", Json.str "SL1"),
      ("productInfo", Json.arr [Json.obj [("asin", Json.str "A1")]])])]

/-- An `OrderCancelledNotification` payload carrying product data and no
instance or slot id. -/
def cancelledPayload : Json :=
  Json.obj [
    ("notificationInfo", Json.obj [("notificationType", Json.str "OrderCancelledNotification")]),
    ("deviceInfo", Json.obj [
      ("deviceIdentifier", Json.obj [("serialNumber", Json.str "S2")]),
      ("productIdentifier", Json.obj [("modelId", Json.str "M2")])]),
    ("customerInfo", Json.obj [("directedCustomerId", Json.str "C2")]),
    ("orderInfo", Json.obj [
      ("productInfo", Json.arr [Json.obj [("asin", Json.str "A7"), ("quantity", Json.str "3")]])])]

/-- A payload with no transport nesting and no notification-info. -/
def notDrsPayload : Json := Json.obj [("hello", Json.str "world")]

/-- A `default` sub-object whose `deviceInfo` field is present but falsy. -/
def falsyDefaultSub : Json := Json.obj [("deviceInfo", Json.null)]

/-- An `email` sub-object with a truthy `deviceInfo`. -/
def emailSub : Json :=
  Json.obj [("deviceInfo", Json.obj [("present", Json.str "yes")])]

/-- Both `default` and `email` present; only the `email` sub-object has a
truthy `deviceInfo`. -/
def falsyDefaultPayload : Json :=
  Json.obj [("default", falsyDefaultSub), ("email", emailSub)]

/-- A `default` sub-object with a truthy `deviceInfo`. -/
def defaultSub : Json :=
  Json.obj [("deviceInfo", Json.obj [("d", Json.str "1")])]

/-- Both `default` and `email` sub-objects carry truthy `deviceInfo`. -/
def bothWrappedPayload : Json :=
  Json.obj [("default", defaultSub), ("email", emailSub)]

def mysteryEnv : Env := ⟨.ok specimenEnvelope, .ok wrappedMysteryPayload, noConfirmCall⟩

def fooBarWrappedEnv : Env := ⟨.ok specimenEnvelope, .ok wrappedUnknownPayload, noConfirmCall⟩

def missingDeviceEnv : Env := ⟨.ok specimenEnvelope, .ok missingDevicePayload, noConfirmCall⟩

def unknownTypeEnv : Env := ⟨.ok specimenEnvelope, .ok unknownTypePayload, noConfirmCall⟩

def transportErrorEnv : Env := ⟨.ok specimenConfirmEnvelope, .ok (Json.obj []), transportErrorOutcome⟩

def badSignatureEnv : Env := ⟨.error (Json.str "bad signature"), .ok (Json.obj []), noConfirmCall⟩

def cancelledEnv : Env := ⟨.ok specimenEnvelope, .ok cancelledPayload, noConfirmCall⟩

def orderPlacedEnv : Env := ⟨.ok specimenEnvelope, .ok orderPlacedPayload, noConfirmCall⟩

def notDrsEnv : Env := ⟨.ok specimenEnvelope, .ok notDrsPayload, noConfirmCall⟩

def bothWrappedEnv : Env := ⟨.ok specimenEnvelope, .ok bothWrappedPayload, noConfirmCall⟩

/-! ### Basic lemmas about the pipeline stages -/

theorem access_error {b : Option Json} {k : String}
    (h : access b k = .error ()) : b = none ∨ b = some Json.null := by
  match b with
  | none => exact Or.inl rfl
  | some Json.null => exact Or.inr rfl
  | some (Json.bool x) => simp [access] at h
  | some (Json.num x) => simp [access] at h
  | some (Json.str x) => simp [access] at h
  | some (Json.arr x) => simp [access] at h
  | some (Json.obj x) => simp [access] at h

theorem access_ok_of_truthy {v : Json} {k : String} (hv : v.truthy = true) :
    access (some v) k = .ok (v.get k) := by
  cases v <;> simp_all [access, Json.truthy]

theorem buildOrderInfo_error {m : Json} {c : Bool}
    (h : buildOrderInfo m c = .error ()) :
    m.get "orderInfo" = none ∨ m.get "orderInfo" = some Json.null := by
  unfold buildOrderInfo at h
  split at h
  · next heq => exact access_error heq
  · split at h
    · next heq =>
      rcases access_error heq with h1 | h1
      · exact Or.inl h1
      · exact Or.inr h1
    · split at h
      · next heq =>
        split at heq
        · exact absurd heq (by simp)
        · rcases access_error heq with h1 | h1
          · exact Or.inl h1
          · exact Or.inr h1
      · exact absurd h (by simp)

/-- The cancellation build always forces an empty product list and defaults
an absent instance or slot id to the empty string. -/
theorem buildOrderInfo_cancelled_spec {m : Json} {oi : IOrderInfo}
    (h : buildOrderInfo m true = .ok oi) :
    oi.productInfo = some (Json.arr []) ∧
    (∀ o, m.get "orderInfo" = some o → o.get "instanceId" = none →
      oi.instanceId = Json.str "") ∧
    (∀ o, m.get "orderInfo" = some o → o.get "slotId" = none →
      oi.slotId = Json.str "") := by
  unfold buildOrderInfo at h
  split at h
  · exact absurd h (by simp)
  · next inst hinst =>
    split at h
    · exact absurd h (by simp)
    · next slot hslot =>
      split at h
      · exact absurd h (by simp)
      · next prod hprod =>
        simp only [Except.ok.injEq] at h
        subst h
        simp only [if_true] at hprod
        refine ⟨?_, ?_, ?_⟩
        · simpa using hprod.symm
        · intro o ho hio
          rw [ho] at hinst
          have hin : inst = none := by
            cases o <;> simp_all [access]
          simp [hin, jsOrEmpty]
        · intro o ho hio
          rw [ho] at hslot
          have hsl : slot = none := by
            cases o <;> simp_all [access]
          simp [hsl, jsOrEmpty]


theorem dispatchTyped_silent {e : Extracted} {m : Json} {h : IHandlers}
    (hd : dispatchTyped e m h = .ok .silent) :
    isKnownTypeOpt e.messageType = false := by
  unfold dispatchTyped at hd
  split at hd
  · next t heq =>
    rw [heq]
    split_ifs at hd with h1 h2 h3 h4 h5 h6 h7 h8 h9 h10 h11 h12 <;>
      try simp_all [missingHandler]
    all_goals try (split at hd <;> simp_all [missingHandler])
    simp_all [isKnownTypeOpt, isKnownType, knownMessageTypes]
  · next heq2 =>
    cases hmt : e.messageType with
    | none => simp [isKnownTypeOpt]
    | some t =>
      cases t <;> simp_all [isKnownTypeOpt, isKnownType]

theorem dispatchTyped_error {e : Extracted} {m : Json} {h : IHandlers} {er : Unit}
    (hd : dispatchTyped e m h = .error er) :
    m.get "orderInfo" = none ∨ m.get "orderInfo" = some Json.null := by
  unfold dispatchTyped at hd
  split at hd
  · split_ifs at hd <;> try simp_all [missingHandler]
    all_goals (
      split at hd
      · next heq => exact buildOrderInfo_error (by cases er; exact heq)
      · simp_all)
  · simp_all

theorem dispatchTyped_not_throw {e : Extracted} {m : Json} {h : IHandlers} :
    dispatchTyped e m h ≠ .ok .throw := by
  unfold dispatchTyped
  split
  · split_ifs <;>
      first
        | (split <;> simp [missingHandler])
        | simp [missingHandler]
  · simp

theorem runTyped_silent {m : Json} {h : IHandlers}
    (hr : runTyped m h = .silent) :
    ∃ e, extract m = .ok e ∧ isKnownTypeOpt e.messageType = false := by
  unfold runTyped at hr
  split at hr
  · simp_all
  · next e hx =>
    split at hr
    · simp_all
    · next a ha => exact ⟨e, hx, dispatchTyped_silent (by rw [ha, hr])⟩

theorem runTyped_throw {m : Json} {h : IHandlers}
    (hr : runTyped m h = .throw) :
    extract m = .error () ∨ m.get "orderInfo" = none ∨ m.get "orderInfo" = some Json.null := by
  unfold runTyped at hr
  split at hr
  · next he => exact Or.inl (by (cases ‹Unit›; simp_all))
  · next e hx =>
    split at hr
    · next er hd => exact Or.inr (dispatchTyped_error hd)
    · next a ha => exact absurd (hr ▸ ha) dispatchTyped_not_throw

theorem runTyped_orderCancelled {m m2 : Json} {h : IHandlers}
    {c mid sn : Option Json} {oi : IOrderInfo}
    (hr : runTyped m h = .orderCancelled c mid sn oi m2) :
    m2 = m ∧ buildOrderInfo m true = .ok oi := by
  unfold runTyped at hr
  split at hr
  · simp_all
  · next e hx =>
    split at hr
    · simp_all
    · next a ha =>
      subst hr
      unfold dispatchTyped at ha
      split at ha
      · split_ifs at ha <;> try simp_all [missingHandler]
        all_goals (
          split at ha <;> simp_all [missingHandler])
      · simp_all

theorem extract_messageType {m : Json} {ni : Json} {e : Extracted}
    (hni : m.get "notificationInfo" = some ni) (hti : ni.truthy = true)
    (hx : extract m = .ok e) :
    e.messageType = ni.get "notificationType" := by
  unfold extract at hx
  split at hx
  · simp_all
  · split at hx
    · simp_all
    · split at hx
      · simp_all
      · split at hx
        · simp_all
        · split at hx
          · simp_all
          · next mt hmt =>
            split at hx
            · simp_all
            · simp only [Except.ok.injEq] at hx
              subst hx
              rw [hni, access_ok_of_truthy hti] at hmt
              simpa using hmt.symm

theorem receiveRequest_dispatch {env : Env} {h : IHandlers}
    {parsed : IBodySNS} {msg0 : Json}
    (h1 : env.verify = .ok parsed) (h2 : parsed.Type_ ≠ "SubscriptionConfirmation")
    (h3 : env.parse = .ok msg0) :
    receiveRequest env h = dispatchMessage msg0 parsed h := by
  unfold receiveRequest
  rw [h1]
  simp only [if_neg h2]
  rw [h3]

theorem dispatchMessage_target {msg0 : Json} {parsed : IBodySNS}
    {h : IHandlers} {m : Json}
    (ht : dispatchTarget msg0 = some m) :
    dispatchMessage msg0 parsed h = runTyped m h := by
  unfold dispatchTarget at ht
  unfold dispatchMessage
  split at ht
  · simp at ht
  · next hnull =>
    rw [if_neg (by simp_all)]
    split at ht
    · simp_all
    · split at ht
      · split at ht
        · split at ht
          · split at ht
            · split at ht
              · simp_all
              · simp at ht
            · simp at ht
          · simp at ht
        · simp at ht
      · simp at ht

theorem handleConfirm_ne_silent {url : String} {c : ConfirmOutcome} :
    handleConfirm url c ≠ .silent := by
  unfold handleConfirm
  split
  · simp
  · split <;> simp

theorem handleConfirm_throw {url : String} {c : ConfirmOutcome}
    (hc : handleConfirm url c = .throw) : c.resp = none := by
  unfold handleConfirm at hc
  split at hc
  · assumption
  · split at hc <;> simp_all

theorem handleConfirm_ne_orderCancelled {url : String} {c : ConfirmOutcome}
    {cid mid sn : Option Json} {oi : IOrderInfo} {m : Json} :
    handleConfirm url c ≠ .orderCancelled cid mid sn oi m := by
  unfold handleConfirm
  split
  · simp
  · split <;> simp

theorem nonDrsFallback_ne_silent {parsed : IBodySNS} {h : IHandlers} :
    nonDrsFallback parsed h ≠ .silent := by
  unfold nonDrsFallback
  split <;> simp

theorem nonDrsFallback_ne_throw {parsed : IBodySNS} {h : IHandlers} :
    nonDrsFallback parsed h ≠ .throw := by
  unfold nonDrsFallback
  split <;> simp

theorem nonDrsFallback_ne_orderCancelled {parsed : IBodySNS} {h : IHandlers}
    {cid mid sn : Option Json} {oi : IOrderInfo} {m : Json} :
    nonDrsFallback parsed h ≠ .orderCancelled cid mid sn oi m := by
  unfold nonDrsFallback
  split <;> simp

theorem dispatchMessage_silent {msg0 : Json} {parsed : IBodySNS} {h : IHandlers}
    (hd : dispatchMessage msg0 parsed h = .silent) :
    ∃ m e, selectWrapped msg0 = some m ∧ extract m = .ok e ∧
      isKnownTypeOpt e.messageType = false := by
  unfold dispatchMessage at hd
  split at hd
  · simp at hd
  · split at hd
    · next m hsel =>
      obtain ⟨e, hx, hk⟩ := runTyped_silent hd
      exact ⟨m, e, hsel, hx, hk⟩
    · split at hd
      · next ni hni =>
        split at hd
        · next hti =>
          split at hd
          · next t hnt =>
            split at hd
            · split at hd
              · next hk =>
                obtain ⟨e, hx, hke⟩ := runTyped_silent hd
                rw [extract_messageType hni hti hx, hnt] at hke
                simp [isKnownTypeOpt, hk] at hke
              · simp at hd
            · exact absurd hd nonDrsFallback_ne_silent
          · exact absurd hd nonDrsFallback_ne_silent
        · exact absurd hd nonDrsFallback_ne_silent
      · exact absurd hd nonDrsFallback_ne_silent

theorem dispatchMessage_throw {msg0 : Json} {parsed : IBodySNS} {h : IHandlers}
    (hd : dispatchMessage msg0 parsed h = .throw) :
    msg0.isNull = true ∨
    ∃ m, (selectWrapped msg0 = some m ∨ m = msg0) ∧
      (extract m = .error () ∨ m.get "orderInfo" = none ∨
        m.get "orderInfo" = some Json.null) := by
  unfold dispatchMessage at hd
  split at hd
  · exact Or.inl (by assumption)
  · refine Or.inr ?_
    split at hd
    · next m hsel => exact ⟨m, Or.inl hsel, runTyped_throw hd⟩
    · split at hd
      · split at hd
        · split at hd
          · split at hd
            · split at hd
              · exact ⟨msg0, Or.inr rfl, runTyped_throw hd⟩
              · simp at hd
            · exact absurd hd nonDrsFallback_ne_throw
          · exact absurd hd nonDrsFallback_ne_throw
        · exact absurd hd nonDrsFallback_ne_throw
      · exact absurd hd nonDrsFallback_ne_throw

theorem dispatchMessage_orderCancelled {msg0 : Json} {parsed : IBodySNS}
    {h : IHandlers} {cid mid sn : Option Json} {oi : IOrderInfo} {m : Json}
    (hd : dispatchMessage msg0 parsed h = .orderCancelled cid mid sn oi m) :
    buildOrderInfo m true = .ok oi := by
  unfold dispatchMessage at hd
  split at hd
  · simp at hd
  · split at hd
    · next m1 hsel =>
      obtain ⟨rfl, hb⟩ := runTyped_orderCancelled hd
      exact hb
    · split at hd
      · split at hd
        · split at hd
          · split at hd
            · split at hd
              · obtain ⟨rfl, hb⟩ := runTyped_orderCancelled hd
                exact hb
              · simp at hd
            · exact absurd hd nonDrsFallback_ne_orderCancelled
          · exact absurd hd nonDrsFallback_ne_orderCancelled
        · exact absurd hd nonDrsFallback_ne_orderCancelled
      · exact absurd hd nonDrsFallback_ne_orderCancelled

theorem receiveRequest_orderCancelled_inv {env : Env} {h : IHandlers}
    {cid mid sn : Option Json} {oi : IOrderInfo} {m : Json}
    (hr : receiveRequest env h = .orderCancelled cid mid sn oi m) :
    buildOrderInfo m true = .ok oi := by
  unfold receiveRequest at hr
  split at hr
  · simp at hr
  · split at hr
    · simp only [] at hr
      split at hr
      · simp at hr
      · exact absurd hr handleConfirm_ne_orderCancelled
    · split at hr
      · simp at hr
      · exact dispatchMessage_orderCancelled hr

theorem selectWrapped_default {msg0 d : Json}
    (hd : msg0.get "default" = some d) (ht : d.truthy = true)
    (hv : truthyOpt (d.get "deviceInfo") = true) :
    selectWrapped msg0 = some d := by
  unfold selectWrapped nestedTruthy
  rw [hd]
  simp [ht, hv]

theorem selectWrapped_email {msg0 d : Json}
    (h0 : nestedTruthy msg0 "default" "deviceInfo" = false)
    (hd : msg0.get "email" = some d) (ht : d.truthy = true)
    (hv : truthyOpt (d.get "deviceInfo") = true) :
    selectWrapped msg0 = some d := by
  unfold selectWrapped
  rw [h0]
  unfold nestedTruthy
  rw [hd]
  simp [ht, hv]

theorem selectWrapped_http {msg0 d : Json}
    (h0 : nestedTruthy msg0 "default" "deviceInfo" = false)
    (h1 : nestedTruthy msg0 "email" "deviceInfo" = false)
    (hd : msg0.get "http" = some d) (ht : d.truthy = true)
    (hv : truthyOpt (d.get "deviceInfo") = true) :
    selectWrapped msg0 = some d := by
  unfold selectWrapped
  rw [h0, h1]
  unfold nestedTruthy
  rw [hd]
  simp [ht, hv]

theorem selectWrapped_https {msg0 d : Json}
    (h0 : nestedTruthy msg0 "default" "deviceInfo" = false)
    (h1 : nestedTruthy msg0 "email" "deviceInfo" = false)
    (h2 : nestedTruthy msg0 "http" "deviceInfo" = false)
    (hd : msg0.get "https" = some d) (ht : d.truthy = true)
    (hv : truthyOpt (d.get "deviceInfo") = true) :
    selectWrapped msg0 = some d := by
  unfold selectWrapped
  rw [h0, h1, h2]
  unfold nestedTruthy
  rw [hd]
  simp [ht, hv]

theorem dispatchTarget_of_selectWrapped {msg0 d : Json}
    (hn : msg0.isNull = false) (hs : selectWrapped msg0 = some d) :
    dispatchTarget msg0 = some d := by
  unfold dispatchTarget
  rw [if_neg (by simp [hn]), hs]


/-! ### Claims -/

/-- C1: amended.  At most one terminal action occurs per dispatch call by
construction; a dispatch that ends with zero terminal actions and no
escaping exception (outcome `silent`) arises only when a verified
non-confirmation envelope parses to a transport-wrapped payload whose
extracted notification type is outside the six known types: the dispatch
chain then falls through without any handler call or error report. -/
theorem receiveRequest_silent_only_wrapped_unknown (env : Env) (h : IHandlers)
    (hs : receiveRequest env h = .silent) :
    ∃ parsed msg0 m e, env.verify = .ok parsed ∧
      parsed.Type_ ≠ "SubscriptionConfirmation" ∧ env.parse = .ok msg0 ∧
      selectWrapped msg0 = some m ∧ extract m = .ok e ∧
      isKnownTypeOpt e.messageType = false := by
  unfold receiveRequest at hs
  split at hs
  · simp at hs
  · next parsed hv =>
    split at hs
    · simp only [] at hs
      split at hs
      · simp at hs
      · exact absurd hs handleConfirm_ne_silent
    · next hnc =>
      split at hs
      · simp at hs
      · next msg0 hp =>
        obtain ⟨m, e, hsel, hx, hk⟩ := dispatchMessage_silent hs
        exact ⟨parsed, msg0, m, e, hv, hnc, hp, hsel, hx, hk⟩

/-- C1: witness for the amended claim at a concrete wrapped payload with
the unknown type `MysteryNotification`. -/
theorem receiveRequest_silent_only_wrapped_unknown_witness :
    receiveRequest mysteryEnv allHandlers = Action.silent ∧
    ∃ parsed msg0 m e, mysteryEnv.verify = .ok parsed ∧
      parsed.Type_ ≠ "SubscriptionConfirmation" ∧ mysteryEnv.parse = .ok msg0 ∧
      selectWrapped msg0 = some m ∧ extract m = .ok e ∧
      isKnownTypeOpt e.messageType = false :=
  ⟨rfl, receiveRequest_silent_only_wrapped_unknown mysteryEnv allHandlers rfl⟩

/-- C1: counterexample to the claim as stated.  On this verified, fully
populated envelope (every handler supplied) the dispatch call performs no
handler invocation, no error report and no confirmation attempt: zero
terminal actions, not exactly one. -/
theorem receiveRequest_wrapped_unknown_silent_cex :
    receiveRequest fooBarWrappedEnv allHandlers = Action.silent := rfl

/-- C2: amended.  Every failure the router detects is reported through a
callback, but a dispatch can end in a thrown TypeError, and it does so
only when (a) a confirmation GET with a non-empty URL yields no response
object, (b) the parsed payload is JSON null, or (c) field extraction after
classification or the orderInfo build dereferences an absent or null
field on the dispatch target. -/
theorem receiveRequest_throw_causes (env : Env) (h : IHandlers)
    (ht : receiveRequest env h = .throw) :
    (∃ parsed, env.verify = .ok parsed ∧
      parsed.Type_ = "SubscriptionConfirmation" ∧
      parsed.SubscribeURL.getD "" ≠ "" ∧ env.confirm.resp = none) ∨
    (∃ parsed msg0, env.verify = .ok parsed ∧
      parsed.Type_ ≠ "SubscriptionConfirmation" ∧ env.parse = .ok msg0 ∧
      (msg0.isNull = true ∨
        ∃ m, (selectWrapped msg0 = some m ∨ m = msg0) ∧
          (extract m = .error () ∨ m.get "orderInfo" = none ∨
            m.get "orderInfo" = some Json.null))) := by
  unfold receiveRequest at ht
  split at ht
  · simp at ht
  · next parsed hv =>
    split at ht
    · next hc =>
      simp only [] at ht
      split at ht
      · simp at ht
      · next hurl =>
        exact Or.inl ⟨parsed, hv, hc, hurl, handleConfirm_throw ht⟩
    · next hnc =>
      split at ht
      · simp at ht
      · next msg0 hp =>
        exact Or.inr ⟨parsed, msg0, hv, hnc, hp, dispatchMessage_throw ht⟩

/-- C2: witness for the amended claim at a classified payload with no
`deviceInfo`. -/
theorem receiveRequest_throw_causes_witness :
    (∃ parsed, missingDeviceEnv.verify = .ok parsed ∧
      parsed.Type_ = "SubscriptionConfirmation" ∧
      parsed.SubscribeURL.getD "" ≠ "" ∧ missingDeviceEnv.confirm.resp = none) ∨
    (∃ parsed msg0, missingDeviceEnv.verify = .ok parsed ∧
      parsed.Type_ ≠ "SubscriptionConfirmation" ∧ missingDeviceEnv.parse = .ok msg0 ∧
      (msg0.isNull = true ∨
        ∃ m, (selectWrapped msg0 = some m ∨ m = msg0) ∧
          (extract m = .error () ∨ m.get "orderInfo" = none ∨
            m.get "orderInfo" = some Json.null))) :=
  receiveRequest_throw_causes missingDeviceEnv allHandlers rfl

/-- C2: counterexample to the claim as stated.  A verified notification
whose payload carries a known notification type but no device-info makes
line 203 dereference an undefined field: the TypeError escapes the async
callback instead of reaching the error callback. -/
theorem receiveRequest_extraction_throw_cex :
    receiveRequest missingDeviceEnv allHandlers = Action.throw := rfl

/-- C3: amended.  For every verified non-confirmation envelope whose parsed
payload is not replaced by the transport unwrapper and carries a truthy
notification-info with a truthy notificationType outside the six known
types, `receiveRequest` reports `unknown_message` with the offending type
value in the raw context and invokes no handler. -/
theorem receiveRequest_unknown_message_unwrapped (env : Env) (h : IHandlers)
    (parsed : IBodySNS) (msg0 ni t : Json)
    (h1 : env.verify = .ok parsed) (h2 : parsed.Type_ ≠ "SubscriptionConfirmation")
    (h3 : env.parse = .ok msg0) (h4 : msg0.isNull = false)
    (h5 : selectWrapped msg0 = none)
    (h6 : msg0.get "notificationInfo" = some ni) (h7 : ni.truthy = true)
    (h8 : ni.get "notificationType" = some t) (h9 : t.truthy = true)
    (h10 : isKnownType t = false) :
    receiveRequest env h = .error "unknown_message" (.message t) := by
  rw [receiveRequest_dispatch h1 h2 h3]
  unfold dispatchMessage
  rw [if_neg (by simp [h4])]
  simp [h5, h6, h7, h8, h9, h10]

/-- C3: witness for the amended claim at an unwrapped payload with the
unknown type `FooBar`. -/
theorem receiveRequest_unknown_message_unwrapped_witness :
    receiveRequest unknownTypeEnv allHandlers
      = .error "unknown_message" (.message (Json.str "FooBar")) :=
  receiveRequest_unknown_message_unwrapped unknownTypeEnv allHandlers
    specimenEnvelope unknownTypePayload
    (Json.obj [("notificationType", Json.str "FooBar")]) (Json.str "FooBar")
    rfl (by decide) rfl rfl rfl rfl rfl rfl rfl rfl

/-- C3: counterexample to the claim as stated: for a payload nested under
the `default` transport key whose nested notificationType is the unknown
`FooBar`, no `unknown_message` error is reported — the dispatch ends
silently, because the known-type check runs only on unwrapped payloads. -/
theorem receiveRequest_wrapped_unknown_no_report_cex :
    receiveRequest fooBarWrappedEnv allHandlers = Action.silent ∧
    ∀ raw, receiveRequest fooBarWrappedEnv allHandlers
      ≠ Action.error "unknown_message" raw := by
  refine ⟨rfl, fun raw h => ?_⟩
  rw [show receiveRequest fooBarWrappedEnv allHandlers = Action.silent from rfl] at h
  exact Action.noConfusion h

/-- C4: evaluation at the failing input.  A confirmation envelope with a
non-empty URL whose GET fails at the transport level (error set, response
undefined) makes line 138 read `statusCode` of undefined — the dispatch
throws instead of reporting `invalid_subscription_request_response`,
because the guard tests the outer validation `err` (null here) rather
than `confirmErr`. -/
theorem receiveRequest_confirm_transport_error_throws :
    receiveRequest transportErrorEnv allHandlers = Action.throw := rfl

/-- C5: every envelope that fails verification is reported exactly once as
`invalid_signature`, wrapping the underlying failure uniformly in the raw
context, and no other callback runs. -/
theorem receiveRequest_invalid_signature (env : Env) (h : IHandlers) (e : Json)
    (hv : env.verify = .error e) :
    receiveRequest env h = .error "invalid_signature" (.verr e) := by
  unfold receiveRequest
  rw [hv]

/-- C5: witness at a concrete verification failure. -/
theorem receiveRequest_invalid_signature_witness :
    receiveRequest badSignatureEnv allHandlers
      = .error "invalid_signature" (.verr (Json.str "bad signature")) :=
  receiveRequest_invalid_signature badSignatureEnv allHandlers
    (Json.str "bad signature") rfl

/-- C6: whenever `receiveRequest` dispatches to `onOrderCancelled`, the
`IOrderInfo` it built carries the empty product list regardless of any
product data in the payload, and its instanceId and slotId are the empty
string whenever the corresponding field is absent from the payload
orderInfo. -/
theorem receiveRequest_orderCancelled_empty_products (env : Env) (h : IHandlers)
    (cid mid sn : Option Json) (oi : IOrderInfo) (m : Json)
    (hr : receiveRequest env h = .orderCancelled cid mid sn oi m) :
    oi.productInfo = some (Json.arr []) ∧
    (∀ o, m.get "orderInfo" = some o → o.get "instanceId" = none →
      oi.instanceId = Json.str "") ∧
    (∀ o, m.get "orderInfo" = some o → o.get "slotId" = none →
      oi.slotId = Json.str "") :=
  buildOrderInfo_cancelled_spec (receiveRequest_orderCancelled_inv hr)

/-- C6: witness at a concrete cancellation whose payload carries product
data and no instance or slot id. -/
theorem receiveRequest_orderCancelled_empty_products_witness :
    (IOrderInfo.mk (Json.str "") (Json.str "") (some (Json.arr []))).productInfo
        = some (Json.arr []) ∧
    (∀ o, cancelledPayload.get "orderInfo" = some o → o.get "instanceId" = none →
      (IOrderInfo.mk (Json.str "") (Json.str "") (some (Json.arr []))).instanceId
        = Json.str "") ∧
    (∀ o, cancelledPayload.get "orderInfo" = some o → o.get "slotId" = none →
      (IOrderInfo.mk (Json.str "") (Json.str "") (some (Json.arr []))).slotId
        = Json.str "") :=
  receiveRequest_orderCancelled_empty_products cancelledEnv allHandlers
    (some (Json.str "C2")) (some (Json.str "M2")) (some (Json.str "S2"))
    (IOrderInfo.mk (Json.str "") (Json.str "") (some (Json.arr [])))
    cancelledPayload rfl

/-- C7: for every classified notification whose type handler is absent,
`receiveRequest` reports `missing_handler` with a raw context naming the
specific absent handler. -/
theorem receiveRequest_missing_handler_named (env : Env) (h : IHandlers)
    (parsed : IBodySNS) (msg0 m : Json) (e : Extracted) (t : String)
    (h1 : env.verify = .ok parsed) (h2 : parsed.Type_ ≠ "SubscriptionConfirmation")
    (h3 : env.parse = .ok msg0) (h4 : dispatchTarget msg0 = some m)
    (h5 : extract m = .ok e) (h6 : e.messageType = some (.str t))
    (h7 : t ∈ knownMessageTypes) (h8 : handlerFlag t h = false) :
    receiveRequest env h = .error "missing_handler" (.handler (handlerFieldName t)) := by
  rw [receiveRequest_dispatch h1 h2 h3, dispatchMessage_target h4]
  have hd : dispatchTyped e m h = .ok (missingHandler (handlerFieldName t)) := by
    unfold dispatchTyped
    rw [h6]
    simp only [knownMessageTypes, List.mem_cons, List.not_mem_nil, or_false] at h7
    rcases h7 with rfl | rfl | rfl | rfl | rfl | rfl <;>
      simp_all [handlerFlag, handlerFieldName]
  unfold runTyped
  simp only [h5, hd, missingHandler]

/-- C7: witness — an `OrderPlacedNotification` dispatched against a handler
set lacking only `onOrderPlaced` reports raw.handler = onOrderPlaced. -/
theorem receiveRequest_missing_handler_named_witness :
    receiveRequest orderPlacedEnv noOrderPlacedHandlers
      = .error "missing_handler" (.handler "onOrderPlaced") := by
  have hres := receiveRequest_missing_handler_named orderPlacedEnv
    noOrderPlacedHandlers specimenEnvelope orderPlacedPayload orderPlacedPayload
    ⟨some (Json.str "S1"), some (Json.str "M1"),
      some (Json.str "OrderPlacedNotification"), some (Json.str "C1")⟩
    "OrderPlacedNotification" rfl (by decide) rfl rfl rfl rfl (by decide) rfl
  simpa [handlerFieldName] using hres

/-- C8: for every verified non-confirmation envelope whose parsed payload
is not transport-wrapped and carries no notification-info discriminator,
`receiveRequest` invokes `onNonDRSMessage` with the verified envelope when
supplied and otherwise reports `not_drs` with the verified envelope —
specific handler first, else generic error. -/
theorem receiveRequest_not_drs_fallback (env : Env) (h : IHandlers)
    (parsed : IBodySNS) (msg0 : Json)
    (h1 : env.verify = .ok parsed) (h2 : parsed.Type_ ≠ "SubscriptionConfirmation")
    (h3 : env.parse = .ok msg0) (h4 : msg0.isNull = false)
    (h5 : selectWrapped msg0 = none)
    (h6 : nestedTruthy msg0 "notificationInfo" "notificationType" = false) :
    receiveRequest env h =
      if h.onNonDRSMessage then Action.nonDRSMessage parsed
      else Action.error "not_drs" (ErrRaw.envelope parsed) := by
  rw [receiveRequest_dispatch h1 h2 h3]
  unfold dispatchMessage
  rw [if_neg (by simp [h4])]
  unfold nestedTruthy at h6
  cases hni : msg0.get "notificationInfo" with
  | none =>
    simp only [h5, hni]
    unfold nonDrsFallback
    rfl
  | some ni =>
    rw [hni] at h6
    simp only [Bool.and_eq_false_iff] at h6
    by_cases hti : ni.truthy = true
    · have h7 : truthyOpt (ni.get "notificationType") = false := by
        rcases h6 with h6 | h6
        · exact absurd hti (by simp [h6])
        · exact h6
      cases hnt : ni.get "notificationType" with
      | none =>
        simp only [h5, hni, hti, if_true, hnt]
        unfold nonDrsFallback
        rfl
      | some t =>
        rw [hnt] at h7
        have h8 : t.truthy = false := by simpa [truthyOpt] using h7
        simp only [h5, hni, hti, if_true, hnt, h8]
        unfold nonDrsFallback
        rfl
    · simp only [h5, hni, Bool.not_eq_true] at hti ⊢
      simp only [hti]
      unfold nonDrsFallback
      rfl

/-- C8: witness — a non-DRS payload with `onNonDRSMessage` supplied goes to
that handler with the verified envelope. -/
theorem receiveRequest_not_drs_fallback_witness :
    receiveRequest notDrsEnv allHandlers = Action.nonDRSMessage specimenEnvelope := by
  have hres := receiveRequest_not_drs_fallback notDrsEnv allHandlers
    specimenEnvelope notDrsPayload rfl (by decide) rfl rfl rfl rfl
  simpa [allHandlers] using hres

/-- C9: amended.  The unwrapper checks the four transport keys in the fixed
priority order default, email, http, https and the subsequent processing
runs on the first sub-object that is truthy and whose `deviceInfo` field
is JS-truthy; in particular when the `default` sub-object qualifies it is
selected no matter what the other keys hold. -/
theorem receiveRequest_unwrap_priority (env : Env) (h : IHandlers)
    (parsed : IBodySNS) (msg0 : Json)
    (h1 : env.verify = .ok parsed) (h2 : parsed.Type_ ≠ "SubscriptionConfirmation")
    (h3 : env.parse = .ok msg0) (h4 : msg0.isNull = false) :
    (∀ d, msg0.get "default" = some d → d.truthy = true →
      truthyOpt (d.get "deviceInfo") = true →
      receiveRequest env h = runTyped d h) ∧
    (∀ d, nestedTruthy msg0 "default" "deviceInfo" = false →
      msg0.get "email" = some d → d.truthy = true →
      truthyOpt (d.get "deviceInfo") = true →
      receiveRequest env h = runTyped d h) ∧
    (∀ d, nestedTruthy msg0 "default" "deviceInfo" = false →
      nestedTruthy msg0 "email" "deviceInfo" = false →
      msg0.get "http" = some d → d.truthy = true →
      truthyOpt (d.get "deviceInfo") = true →
      receiveRequest env h = runTyped d h) ∧
    (∀ d, nestedTruthy msg0 "default" "deviceInfo" = false →
      nestedTruthy msg0 "email" "deviceInfo" = false →
      nestedTruthy msg0 "http" "deviceInfo" = false →
      msg0.get "https" = some d → d.truthy = true →
      truthyOpt (d.get "deviceInfo") = true →
      receiveRequest env h = runTyped d h) := by
  refine ⟨?_, ?_, ?_, ?_⟩
  · intro d hd ht hv
    rw [receiveRequest_dispatch h1 h2 h3,
      dispatchMessage_target (dispatchTarget_of_selectWrapped h4 (selectWrapped_default hd ht hv))]
  · intro d h0 hd ht hv
    rw [receiveRequest_dispatch h1 h2 h3,
      dispatchMessage_target (dispatchTarget_of_selectWrapped h4 (selectWrapped_email h0 hd ht hv))]
  · intro d h0 he hd ht hv
    rw [receiveRequest_dispatch h1 h2 h3,
      dispatchMessage_target (dispatchTarget_of_selectWrapped h4 (selectWrapped_http h0 he hd ht hv))]
  · intro d h0 he hh hd ht hv
    rw [receiveRequest_dispatch h1 h2 h3,
      dispatchMessage_target (dispatchTarget_of_selectWrapped h4 (selectWrapped_https h0 he hh hd ht hv))]

/-- C9: witness — with truthy `deviceInfo` under both `default` and
`email`, processing continues on the `default` sub-object. -/
theorem receiveRequest_unwrap_priority_witness :
    receiveRequest bothWrappedEnv allHandlers = runTyped defaultSub allHandlers := by
  have hres := receiveRequest_unwrap_priority bothWrappedEnv allHandlers
    specimenEnvelope bothWrappedPayload rfl (by decide) rfl rfl
  exact hres.1 defaultSub rfl rfl rfl

/-- C9: counterexample to the claim as stated: the `default` sub-object
contains a `deviceInfo` field (value null), yet the unwrapper does not
select it — it selects the `email` sub-object, because the guard tests
JS-truthiness of `deviceInfo`, not mere containment. -/
theorem selectWrapped_falsy_deviceInfo_cex :
    falsyDefaultPayload.get "default" = some falsyDefaultSub ∧
    falsyDefaultSub.get "deviceInfo" = some Json.null ∧
    selectWrapped falsyDefaultPayload = some emailSub ∧
    emailSub ≠ falsyDefaultSub := by
  refine ⟨rfl, rfl, rfl, fun hcontra => ?_⟩
  simp [emailSub, falsyDefaultSub] at hcontra

/-- C10: a `validate` call with a handler set lacking
`onOnlyValidateMessage` and no plain callback invokes no callback at all
when verification succeeds: the call is not promise-style and ends with no
terminal action. -/
theorem validate_success_no_callback_silent (h : IHandlers) (p : IBodySNS)
    (h1 : h.onOnlyValidateMessage = false) :
    validate (.ok p) (some h) false = .plain .silent := by
  unfold validate
  simp [h1]

/-- C10: witness at a concrete handler set and envelope. -/
theorem validate_success_no_callback_silent_witness :
    validate (.ok specimenEnvelope) (some noValidateHandlers) false
      = .plain .silent :=
  validate_success_no_callback_silent noValidateHandlers specimenEnvelope rfl

end DRS
